import Mathlib

/-!
Verification development for the libnetconf2 client core
(`src/session_client.c`).  The C functions relevant to the checked
properties are shallowly embedded as executable Lean definitions:

* the session message pump / demultiplexer `get_msg` together with
  `nc_recv_reply` (queues become lists, the transport becomes an explicit
  list of wire events, the session mutex becomes a `LockResult` input),
* the reply parser `parse_reply` with structured `parse_rpc_error`
  decoding (libyang calls are external collaborators and enter as oracle
  parameters),
* the schema-context loader `nc_ctx_check_and_fill` with its helpers
  `ctx_check_and_load_model`, `ctx_check_and_load_ietf_netconf` and the
  reentrant fetch callback `libyang_module_clb` (module availability is
  an oracle; the libyang module-callback slot is tracked explicitly).

C strings are embedded as `List Char`; `strtoul`, `strchr`, `strrchr`,
`strstr` and `strndup` are modelled byte-for-byte where the claims
depend on them.
-/

/-- A parsed XML element as produced by the transport collaborator
(`lyxml_elem`): name, namespace, text content, attributes and children. -/
inductive Xml where
  | mk (name : String) (ns : Option String) (content : Option String)
       (attrs : List (String × String)) (children : List Xml)

def Xml.name : Xml → String
  | .mk n _ _ _ _ => n

def Xml.ns : Xml → Option String
  | .mk _ n _ _ _ => n

def Xml.content : Xml → Option String
  | .mk _ _ c _ _ => c

def Xml.attrs : Xml → List (String × String)
  | .mk _ _ _ a _ => a

def Xml.children : Xml → List Xml
  | .mk _ _ _ _ c => c

/-- `lyxml_get_attr(elem, name, NULL)`: first attribute with the given
name, or NULL. -/
def lyxml_get_attr (x : Xml) (name : String) : Option String :=
  (x.attrs.find? (fun p => p.1 == name)).map (fun p => p.2)

/-- The NETCONF base namespace `NC_NS_BASE`. -/
def NC_NS_BASE : String := "urn:ietf:params:xml:ns:netconf:base:1.0"

/-- C `isspace` for the default locale (the characters skipped by
`strtoul`). -/
def cIsSpace (c : Char) : Bool :=
  c == ' ' || c == '\t' || c == '\n' || (c == Char.ofNat 11) ||
  (c == Char.ofNat 12) || c == '\r'

/-- `strtoul(s, &end, 10)` on a 64-bit platform: skip leading white
space, optional sign, accumulate decimal digits; `ULONG_MAX` on
overflow; a leading minus wraps modulo 2^64. -/
def strtoul10 (s : String) : Nat :=
  let t := s.data.dropWhile cIsSpace
  let negAndRest : Bool × List Char :=
    match t with
    | '-' :: r => (true, r)
    | '+' :: r => (false, r)
    | _ => (false, t)
  let ds := negAndRest.2.takeWhile Char.isDigit
  let v := ds.foldl (fun a c => a * 10 + (c.toNat - 48)) 0
  if v ≥ 2 ^ 64 then 2 ^ 64 - 1
  else if negAndRest.1 then (2 ^ 64 - v % 2 ^ 64) % 2 ^ 64
  else v

/-- `NC_MSG_TYPE` from the public headers. -/
inductive NC_MSG_TYPE where
  | NC_MSG_ERROR
  | NC_MSG_WOULDBLOCK
  | NC_MSG_NONE
  | NC_MSG_HELLO
  | NC_MSG_RPC
  | NC_MSG_REPLY
  | NC_MSG_NOTIF
deriving DecidableEq

open NC_MSG_TYPE

/-- The two per-session FIFO queues (`session->replies`,
`session->notifs`), each a singly linked list of parsed XML roots. -/
structure SessionState where
  replies : List Xml
  notifs : List Xml

/-- One event observable on the transport by `nc_read_msg_poll`: either a
fully parsed message of a given kind, a poll timeout, or an I/O error. -/
inductive WireEvent where
  | msg (t : NC_MSG_TYPE) (x : Xml)
  | wouldblock
  | ioError

/-- `nc_read_msg_poll(session, timeout, &xml)`: consume the next wire
event; an empty transport behaves as a poll timeout. -/
def nc_read_msg_poll : List WireEvent → NC_MSG_TYPE × Option Xml × List WireEvent
  | [] => (NC_MSG_WOULDBLOCK, none, [])
  | .msg t x :: rest => (t, some x, rest)
  | .wouldblock :: rest => (NC_MSG_WOULDBLOCK, none, rest)
  | .ioError :: rest => (NC_MSG_ERROR, none, rest)

/-- Outcome of `nc_timedlock(session->ti_lock, timeout, &elapsed)`. -/
inductive LockResult where
  | err
  | timedout
  | acquired (elapsed : Int)

/-- Result of one `get_msg` call: the returned `NC_MSG_TYPE`, the message
written through the out-parameter (if any), the session queues after the
call, and the wire events not yet consumed. -/
structure GetMsgResult where
  msgtype : NC_MSG_TYPE
  msg : Option Xml
  state : SessionState
  wire : List WireEvent

/-- The reply-queue scan of `get_msg` (the `while (session->replies)`
loop): pop entries head-first; an entry whose parsed `message-id` equals
the wanted id is returned together with the entries after it; entries
passed over are discarded (freed).  Note `lyxml_get_attr` returning NULL
feeds `strtoul` undefined behaviour in C; the model reads the attribute
with an empty-string default, which is only reachable when the queue
invariant of the source (all parked replies carry `message-id`) is
broken. -/
def scanReplies (msgid : Nat) : List Xml → Option Xml × List Xml
  | [] => (none, [])
  | cont :: rest =>
    if strtoul10 ((lyxml_get_attr cont "message-id").getD "") = msgid then
      (some cont, rest)
    else
      scanReplies msgid rest

/-- The read-and-classify tail of `get_msg` (from the
`nc_read_msg_poll` call to the final `switch (msgtype)`). -/
def readAndClassify (msgid : Nat) (st : SessionState) (wire : List WireEvent) : GetMsgResult :=
  match nc_read_msg_poll wire with
  | (NC_MSG_REPLY, some xml, rest) =>
    if msgid = 0 then
      match lyxml_get_attr xml "message-id" with
      | none => ⟨NC_MSG_ERROR, none, st, rest⟩
      | some _ => ⟨NC_MSG_REPLY, none, ⟨st.replies ++ [xml], st.notifs⟩, rest⟩
    else
      ⟨NC_MSG_REPLY, some xml, st, rest⟩
  | (NC_MSG_NOTIF, some xml, rest) =>
    if msgid = 0 then
      ⟨NC_MSG_NOTIF, some xml, st, rest⟩
    else
      ⟨NC_MSG_NOTIF, none, ⟨st.replies, st.notifs ++ [xml]⟩, rest⟩
  | (NC_MSG_HELLO, _, rest) => ⟨NC_MSG_ERROR, none, st, rest⟩
  | (NC_MSG_RPC, _, rest) => ⟨NC_MSG_ERROR, none, st, rest⟩
  | (t, _, rest) => ⟨t, none, st, rest⟩

/-- `get_msg(session, timeout, msgid, &msg)`: the session demultiplexer.
Lock acquisition comes in as a `LockResult`; the queues and the
transport are threaded explicitly. -/
def get_msg (lock : LockResult) (timeout : Int) (msgid : Nat)
    (st : SessionState) (wire : List WireEvent) : GetMsgResult :=
  match lock with
  | .err => ⟨NC_MSG_ERROR, none, st, wire⟩
  | .timedout => ⟨NC_MSG_WOULDBLOCK, none, st, wire⟩
  | .acquired elapsed =>
    let _remaining : Int := if timeout > 0 then timeout - elapsed else timeout
    if msgid = 0 then
      match st.notifs with
      | n :: nrest => ⟨NC_MSG_NOTIF, some n, ⟨st.replies, nrest⟩, wire⟩
      | [] => readAndClassify msgid st wire
    else
      match scanReplies msgid st.replies with
      | (some m, rest) => ⟨NC_MSG_REPLY, some m, ⟨rest, st.notifs⟩, wire⟩
      | (none, rest) => readAndClassify msgid ⟨rest, st.notifs⟩ wire

/-- An `nc_err` record as filled by `parse_rpc_error` (realloc-grown
vectors become lists; `lydict_insert` is the identity on strings). -/
structure NcErr where
  type : Option String
  tag : Option String
  severity : Option String
  apptag : Option String
  path : Option String
  message : Option String
  message_lang : Option String
  sid : Option String
  attr : List String
  elem : List String
  ns : List String
  other : List Xml

/-- A zeroed `nc_err` (from `calloc` in `parse_reply`). -/
def emptyErr : NcErr :=
  { type := none, tag := none, severity := none, apptag := none, path := none,
    message := none, message_lang := none, sid := none,
    attr := [], elem := [], ns := [], other := [] }

/-- The closed set of NETCONF error tags accepted by the `<error-tag>`
branch of `parse_rpc_error`, in source order.  (The specification calls
this the set of "18 known tags", but its own enumeration — and the
`strcmp` chain in the source — contains these 19 literals.) -/
def errorTags : List String :=
  ["in-use", "invalid-value", "too-big", "missing-attribute", "bad-attribute",
   "unknown-attribute", "missing-element", "bad-element", "unknown-element",
   "unknown-namespace", "access-denied", "lock-denied", "resource-denied",
   "rollback-failed", "data-exists", "data-missing", "operation-not-supported",
   "operation-failed", "malformed-message"]

/-- The `<error-info>` inner loop of `parse_rpc_error`: one info child. -/
def errorInfoStep (err : NcErr) (info : Xml) : NcErr :=
  match info.ns with
  | some nsv =>
    if nsv = NC_NS_BASE then
      if info.name = "session-id" then
        if err.sid.isSome then err else { err with sid := some (info.content.getD "") }
      else if info.name = "bad-attr" then
        { err with attr := err.attr ++ [info.content.getD ""] }
      else if info.name = "bad-element" then
        { err with elem := err.elem ++ [info.content.getD ""] }
      else if info.name = "bad-namespace" then
        { err with ns := err.ns ++ [info.content.getD ""] }
      else
        err
    else
      { err with other := err.other ++ [info] }
  | none => { err with other := err.other ++ [info] }

/-- One iteration of the `LY_TREE_FOR(xml->child, iter)` loop of
`parse_rpc_error`: children without a namespace or outside the base
namespace are skipped with a warning; known singleton fields keep the
first occurrence; unknown or out-of-set values are logged and
dropped. -/
def parseRpcErrorStep (err : NcErr) (iter : Xml) : NcErr :=
  match iter.ns with
  | none => err
  | some nsv =>
    if nsv ≠ NC_NS_BASE then err
    else if iter.name = "error-type" then
      match iter.content with
      | none => err
      | some c =>
        if c = "transport" ∨ c = "rpc" ∨ c = "protocol" ∨ c = "application" then
          if err.type.isSome then err else { err with type := some c }
        else err
    else if iter.name = "error-tag" then
      match iter.content with
      | none => err
      | some c =>
        if c ∈ errorTags then
          if err.tag.isSome then err else { err with tag := some c }
        else err
    else if iter.name = "error-severity" then
      match iter.content with
      | none => err
      | some c =>
        if c = "error" ∨ c = "warning" then
          if err.severity.isSome then err else { err with severity := some c }
        else err
    else if iter.name = "error-app-tag" then
      if err.apptag.isSome then err else { err with apptag := some (iter.content.getD "") }
    else if iter.name = "error-path" then
      if err.path.isSome then err else { err with path := some (iter.content.getD "") }
    else if iter.name = "error-message" then
      if err.message.isSome then err
      else { err with message_lang := lyxml_get_attr iter "xml:lang",
                      message := some (iter.content.getD "") }
    else if iter.name = "error-info" then
      iter.children.foldl errorInfoStep err
    else
      err

/-- `parse_rpc_error(ctx, xml, err)` on a freshly `calloc`ed record. -/
def parse_rpc_error (xml : Xml) : NcErr :=
  xml.children.foldl parseRpcErrorStep emptyErr

/-- Schema nodes handed around by the libyang collaborator
(`lys_node *`); only their identity matters to this core. -/
abbrev SchemaNode := String

/-- The RPC descriptor kinds (`NC_RPC_TYPE`) as far as `parse_reply`
inspects them; the generic variant carries the fields `parse_reply`
reads (`has_data`, the schema of the carried tree, the stored XML). -/
structure NcRpcGeneric where
  hasData : Bool
  dataSchema : Option SchemaNode
  xmlStr : String

inductive NcRpc where
  | generic (g : NcRpcGeneric)
  | getconfig
  | edit
  | copy
  | delete
  | lock
  | unlock
  | get
  | kill
  | commit
  | discard
  | cancel
  | validate
  | getschema
  | subscribe

/-- The libyang parsing collaborators used by `parse_reply`
(spec section 6: the YANG library is an external interface). -/
structure ParseOracle where
  lyd_parse_mem : String → Option Xml
  schemaOf : Xml → SchemaNode
  ctx_get_node : String → Option SchemaNode
  lyd_parse_xml_data : List Xml → Option Xml
  lyd_parse_xml_reply : List Xml → SchemaNode → Option Xml

/-- `nc_reply` variants (`NC_RPL_OK`, `NC_RPL_DATA`, `NC_RPL_ERROR`). -/
inductive NcReply where
  | ok
  | data (t : Xml)
  | error (errs : List NcErr)

/-- `parse_reply(ctx, xml, rpc, parseroptions)`: dispatch on the first
child of `<rpc-reply>`; NULL becomes `none`. -/
def parse_reply (po : ParseOracle) (xml : Xml) (rpc : NcRpc) : Option NcReply :=
  match xml.children with
  | [] => none
  | first :: restChildren =>
    if first.name = "rpc-error" ∧ first.ns = some NC_NS_BASE then
      if (first :: restChildren).all
          (fun iter => iter.name == "rpc-error" && iter.ns == some NC_NS_BASE) then
        some (.error ((first :: restChildren).map parse_rpc_error))
      else none
    else if first.name = "ok" ∧ first.ns = some NC_NS_BASE then
      if restChildren.isEmpty then some .ok else none
    else
      match rpc with
      | .generic g =>
        let schemaOpt : Option SchemaNode :=
          if g.hasData then g.dataSchema
          else
            match po.lyd_parse_mem g.xmlStr with
            | none => none
            | some d => some (po.schemaOf d)
        match schemaOpt with
        | none => none
        | some schema =>
          match po.lyd_parse_xml_reply xml.children schema with
          | none => none
          | some d => some (.data d)
      | .getconfig =>
        match po.lyd_parse_xml_data first.children with
        | none => none
        | some d => some (.data d)
      | .get =>
        match po.lyd_parse_xml_data first.children with
        | none => none
        | some d => some (.data d)
      | .getschema =>
        match po.ctx_get_node "/ietf-netconf-monitoring:get-schema" with
        | none => none
        | some schema =>
          match po.lyd_parse_xml_reply xml.children schema with
          | none => none
          | some d => some (.data d)
      | _ => none

/-- Result of `nc_recv_reply`: return code, the parsed reply written
through the out-parameter, and the session/transport state after the
call. -/
structure RecvReplyResult where
  msgtype : NC_MSG_TYPE
  reply : Option NcReply
  state : SessionState
  wire : List WireEvent

/-- `nc_recv_reply(session, rpc, msgid, timeout, parseroptions, &reply)`.
`argsOk` condenses the argument/side/status guards at the top of the
function. -/
def nc_recv_reply (po : ParseOracle) (argsOk : Bool) (rpc : NcRpc)
    (lock : LockResult) (timeout : Int) (msgid : Nat)
    (st : SessionState) (wire : List WireEvent) : RecvReplyResult :=
  if !argsOk then ⟨NC_MSG_ERROR, none, st, wire⟩
  else
    let r := get_msg lock timeout msgid st wire
    if r.msgtype = NC_MSG_REPLY then
      match r.msg with
      | some xml =>
        match parse_reply po xml rpc with
        | none => ⟨NC_MSG_ERROR, none, r.state, r.wire⟩
        | some rep => ⟨NC_MSG_REPLY, some rep, r.state, r.wire⟩
      | none => ⟨NC_MSG_REPLY, none, r.state, r.wire⟩
    else
      ⟨r.msgtype, none, r.state, r.wire⟩

/-- `strchr(s, c)` as an index (first occurrence). -/
def strchrIdx (s : List Char) (c : Char) : Option Nat :=
  s.findIdx? (fun x => x == c)

/-- Accumulator recursion behind `strrchrIdx`. -/
def strrchrIdxAux (c : Char) : List Char → Nat → Option Nat → Option Nat
  | [], _, best => best
  | x :: xs, i, best => strrchrIdxAux c xs (i + 1) (if x == c then some i else best)

/-- `strrchr(s, c)` as an index (last occurrence). -/
def strrchrIdx (s : List Char) (c : Char) : Option Nat :=
  strrchrIdxAux c s 0 none

/-- `strstr(hay, needle)` as an index of the first occurrence. -/
def strstrIdx : List Char → List Char → Option Nat
  | _, [] => some 0
  | [], _ :: _ => none
  | x :: xs, needle =>
    if needle.isPrefixOf (x :: xs) then some 0
    else (strstrIdx xs needle).map (· + 1)

/-- The `strstr(cpblt, key); ptr += keyLen; strchr(ptr, '&')` +
`strndup` idiom used by `ctx_check_and_load_model` to cut one query
parameter value out of a capability URI. -/
def parseParam (cpblt key : List Char) (keyLen : Nat) : Option (List Char) :=
  match strstrIdx cpblt key with
  | none => none
  | some i => some (((cpblt.drop (i + keyLen)).takeWhile (fun c => c ≠ '&')))

/-- State of the libyang module-retrieval callback slot of the schema
context (`ly_ctx_get_module_clb` / `ly_ctx_set_module_clb`): no
callback, a user-supplied callback, or the in-band `libyang_module_clb`
get-schema callback. -/
inductive ClbState where
  | noClb
  | user
  | getschema
deriving DecidableEq

/-- The environment of collaborator outcomes the loader runs against:
whether `ietf-netconf-monitoring` is already in the context, whether its
bundled YIN file parses, whether the base `ietf-netconf` module can be
obtained (via get, load, or the bundled YIN file), and whether a given
module/revision pair loads under a given callback state. -/
structure LoaderEnv where
  monitoringLocal : Bool
  monitoringParseOk : Bool
  baseAvail : Bool
  loadOk : List Char → Option (List Char) → ClbState → Bool

/-- `ctx_check_and_load_model(session, cpblt)`: parse `module=` (−1 when
absent), optional `revision=`, try the load; 1 on load failure, 0 on
success.  The `features=` comma list only drives `lys_features_enable`
side effects on the collaborator and does not influence the return
value. -/
def ctx_check_and_load_model (env : LoaderEnv) (clb : ClbState) (cpblt : List Char) : Int :=
  match parseParam cpblt "module=".data 7 with
  | none => -1
  | some model_name =>
    let revision := parseParam cpblt "revision=".data 9
    if env.loadOk model_name revision clb then 0 else 1

/-- The eight `ietf-netconf` features toggled from
`urn:ietf:params:netconf:capability:` capabilities. -/
inductive Feature where
  | writableRunning
  | candidate
  | confirmedCommit
  | rollbackOnError
  | validate
  | startup
  | url
  | xpath
deriving DecidableEq

/-- The 35-byte prefix compared by
`strncmp(cpblts[i], "urn:ietf:params:netconf:capability:", 35)`. -/
def CAP_PREFIX : List Char := "urn:ietf:params:netconf:capability:".data

/-- The `if`/`else if` feature chain of `ctx_check_and_load_ietf_netconf`
applied to the 35-byte suffix of a capability: prefix comparisons
(`strncmp` with the literal length) for six features, exact `strcmp`
for `confirmed-commit:1.1` and `validate:1.1`. -/
def capSuffixFeature (s : List Char) : Option Feature :=
  if "writable-running".data.isPrefixOf s then some .writableRunning
  else if "candidate".data.isPrefixOf s then some .candidate
  else if s = "confirmed-commit:1.1".data then some .confirmedCommit
  else if "rollback-on-error".data.isPrefixOf s then some .rollbackOnError
  else if s = "validate:1.1".data then some .validate
  else if "startup".data.isPrefixOf s then some .startup
  else if "url".data.isPrefixOf s then some .url
  else if "xpath".data.isPrefixOf s then some .xpath
  else none

/-- Feature enabled on `ietf-netconf` by one capability string (none for
capabilities outside the `capability:` URI space or with an unknown
suffix). -/
def capFeature (cpblt : List Char) : Option Feature :=
  if CAP_PREFIX.isPrefixOf cpblt then capSuffixFeature (cpblt.drop 35) else none

/-- `ctx_check_and_load_ietf_netconf(ctx, cpblts)`: 1 when the base
schema cannot be obtained, otherwise 0 together with the features
enabled while walking the capabilities. -/
def ctx_check_and_load_ietf_netconf (baseAvail : Bool) (cpblts : List (List Char)) :
    Int × List Feature :=
  if baseAvail then (0, cpblts.filterMap capFeature) else (1, [])

/-- The 51-byte prefix compared when scanning for the monitoring
capability (`get_schema_support`). -/
def GET_SCHEMA_CAP : List Char := "urn:ietf:params:xml:ns:yang:ietf-netconf-monitoring".data

/-- Capabilities skipped by the model-loading loop of
`nc_ctx_check_and_fill` (`capability:` and `base` URIs). -/
def isCapOrBase (c : List Char) : Bool :=
  "urn:ietf:params:netconf:capability".data.isPrefixOf c ||
  "urn:ietf:params:netconf:base".data.isPrefixOf c

/-- Accumulator of the model-loading loop: running return value, current
callback slot, model names that finally failed to load, and the `break`
flag of the `r == -1` arm. -/
structure FillAcc where
  ret : Int
  clb : ClbState
  failed : List (List Char)
  stopped : Bool

/-- The second load attempt of the `r == 1` arm (`r2` in the source):
under the saved `old_clb` when `get_schema_support` is true, otherwise
the value of the first attempt is kept (the retry does not happen). -/
def fillRetry (env : LoaderEnv) (get_schema_support : Bool) (oldClb clb : ClbState)
    (c : List Char) : Int :=
  if get_schema_support then ctx_check_and_load_model env oldClb c
  else ctx_check_and_load_model env clb c

/-- One iteration of the `for` loop over capabilities in
`nc_ctx_check_and_fill`: skip `capability:`/`base` URIs, try the load,
on failure optionally retry under the saved callback (`old_clb`, NULL
when never captured) and afterwards set the get-schema callback —
unconditionally, also when `get_schema_support` is false. -/
def fillStep (env : LoaderEnv) (get_schema_support : Bool) (oldClb : ClbState)
    (acc : FillAcc) (c : List Char) : FillAcc :=
  if acc.stopped then acc
  else if isCapOrBase c then acc
  else if ctx_check_and_load_model env acc.clb c = -1 then
    { acc with ret := -1, stopped := true }
  else if ctx_check_and_load_model env acc.clb c = 1 then
    { ret := if fillRetry env get_schema_support oldClb acc.clb c ≠ 0 then 1 else acc.ret,
      clb := .getschema,
      failed := if fillRetry env get_schema_support oldClb acc.clb c ≠ 0 then
                  acc.failed ++ [(parseParam c "module=".data 7).getD []]
                else acc.failed,
      stopped := false }
  else acc

/-- Result of `nc_ctx_check_and_fill`: the aggregate return value
(0 ok / 1 some models failed / −1 error), the final state of the
context's module callback slot, and the models that failed to load. -/
structure FillResult where
  ret : Int
  clb : ClbState
  failed : List (List Char)

/-- `get_schema_support`: the monitoring capability is announced. -/
def gssOf (cpblts : List (List Char)) : Bool :=
  cpblts.any (fun c => GET_SCHEMA_CAP.isPrefixOf c)

/-- Whether `old_clb` was captured and the in-band callback installed:
monitoring announced, not already in the context, and the bundled YIN
file parsed. -/
def capturedOf (env : LoaderEnv) (cpblts : List (List Char)) : Bool :=
  gssOf cpblts && !env.monitoringLocal && env.monitoringParseOk

/-- The value of `old_clb` as the loop sees it (NULL when the capture
never happened). -/
def oldClbOf (env : LoaderEnv) (initClb : ClbState) (cpblts : List (List Char)) : ClbState :=
  if capturedOf env cpblts then initClb else .noClb

/-- The callback slot right after the optional install. -/
def clb1Of (env : LoaderEnv) (initClb : ClbState) (cpblts : List (List Char)) : ClbState :=
  if capturedOf env cpblts then .getschema else initClb

/-- The final `if (old_clb) ly_ctx_set_module_clb(ctx, old_clb, old_data)`
restore: it fires only when the capture happened and the captured
pointer was non-NULL (a user callback existed). -/
def finalClb (env : LoaderEnv) (initClb : ClbState) (cpblts : List (List Char))
    (clbNow : ClbState) : ClbState :=
  if capturedOf env cpblts && decide (initClb ≠ .noClb) then initClb else clbNow

/-- The model-loading `for` loop of `nc_ctx_check_and_fill`. -/
def fillLoop (env : LoaderEnv) (initClb : ClbState) (cpblts : List (List Char)) : FillAcc :=
  cpblts.foldl (fillStep env (gssOf cpblts) (oldClbOf env initClb cpblts))
    { ret := 0, clb := clb1Of env initClb cpblts, failed := [], stopped := false }

/-- `nc_ctx_check_and_fill(session)`.  `initClb` is the module-callback
slot of the context on entry (the user-supplied callback or none). -/
def nc_ctx_check_and_fill (env : LoaderEnv) (initClb : ClbState)
    (cpblts : List (List Char)) : FillResult :=
  if (ctx_check_and_load_ietf_netconf env.baseAvail cpblts).1 ≠ 0 then
    { ret := -1,
      clb := finalClb env initClb cpblts (clb1Of env initClb cpblts),
      failed := [] }
  else
    { ret := (fillLoop env initClb cpblts).ret,
      clb := finalClb env initClb cpblts (fillLoop env initClb cpblts).clb,
      failed := (fillLoop env initClb cpblts).failed }

/-- The `<data>`-wrapper strip of `libyang_module_clb`:
`ptr = strchr(anyxml, '>') + 1; ptr2 = strrchr(anyxml, '<');
model_data = strndup(ptr, strlen(ptr) - strlen(ptr2))`, with the
`size_t` subtraction wrapping modulo 2^64 and `strndup` capping at the
string length.  A payload without `'>'` or without `'<'` drives the C
into undefined pointer arithmetic; the model returns `none` there. -/
def stripTake (len p q : Nat) : Nat :=
  if len - q ≤ len - p then (len - p) - (len - q)
  else (2 ^ 64 - ((len - q) - (len - p))) % 2 ^ 64

def stripDataWrapper (anyxml : List Char) : Option (List Char) :=
  match strchrIdx anyxml '>' with
  | none => none
  | some g =>
    match strrchrIdx anyxml '<' with
    | none => none
    | some q => some ((anyxml.drop (g + 1)).take (stripTake anyxml.length (g + 1) q))

/-- The fields of `nc_rpc_getschema` filled by `nc_rpc_getschema(name,
revision, "yin", NC_PARAMTYPE_CONST)`. -/
structure NcRpcGetschema where
  identifier : String
  version : Option String
  format : Option String
deriving DecidableEq

/-- `LYS_INFORMAT` values the callback can report back to libyang. -/
inductive LYS_INFORMAT where
  | LYS_IN_YANG
  | LYS_IN_YIN
deriving DecidableEq

/-- Outcome of the send/receive round trip the callback performs through
the message pump (`nc_send_rpc` looping over `NC_MSG_WOULDBLOCK`, then
`nc_recv_reply`). -/
inductive SchemaReplyOutcome where
  | sendError
  | recvWouldblock
  | recvError
  | recvReply (isData : Bool) (printedAnyxml : Option (List Char))

/-- Observable behaviour of one `libyang_module_clb` invocation: the
get-schema RPC it builds, the format it reports, the reply timeout it
passes to `nc_recv_reply`, and the model text it returns (NULL =
`none`). -/
structure ModClbCall where
  rpc : NcRpcGetschema
  informat : LYS_INFORMAT
  replyTimeout : Int
  result : Option (List Char)

/-- `libyang_module_clb(name, revision, user_data, format,
free_model_data)`. -/
def libyang_module_clb (name : String) (revision : Option String)
    (outcome : SchemaReplyOutcome) : ModClbCall :=
  { rpc := { identifier := name, version := revision, format := some "yin" },
    informat := .LYS_IN_YIN,
    replyTimeout := 250,
    result :=
      match outcome with
      | .sendError => none
      | .recvWouldblock => none
      | .recvError => none
      | .recvReply isData printed =>
        if isData then
          match printed with
          | none => none
          | some a => stripDataWrapper a
        else none }

/-! ## Theorems about the message pump -/

/-- Parsed `message-id` of a queued or delivered reply, exactly as the
queue scan computes it. -/
def parsedMsgid (x : Xml) : Nat :=
  strtoul10 ((lyxml_get_attr x "message-id").getD "")

lemma scanReplies_found (msgid : Nat) (pre suf : List Xml) (m : Xml)
    (hpre : ∀ x ∈ pre, parsedMsgid x ≠ msgid)
    (hm : parsedMsgid m = msgid) :
    scanReplies msgid (pre ++ m :: suf) = (some m, suf) := by
  unfold parsedMsgid at hpre hm
  induction pre with
  | nil =>
    simp only [List.nil_append, scanReplies]
    rw [if_pos hm]
  | cons x xs ih =>
    have hx := hpre x (by simp)
    simp only [List.cons_append, scanReplies]
    rw [if_neg hx]
    exact ih (fun y hy => hpre y (by simp [hy]))

lemma scanReplies_eq_some (msgid : Nat) (q : List Xml) (m : Xml) (rest : List Xml)
    (h : scanReplies msgid q = (some m, rest)) : parsedMsgid m = msgid := by
  induction q with
  | nil => simp [scanReplies] at h
  | cons c cs ih =>
    by_cases hc : strtoul10 ((lyxml_get_attr c "message-id").getD "") = msgid
    · rw [scanReplies, if_pos hc] at h
      simp only [Prod.mk.injEq, Option.some.injEq] at h
      unfold parsedMsgid
      rw [← h.1]
      exact hc
    · rw [scanReplies, if_neg hc] at h
      exact ih h

lemma scanReplies_rest_mem (msgid : Nat) (q : List Xml) :
    ∀ x ∈ (scanReplies msgid q).2, x ∈ q := by
  induction q with
  | nil => simp [scanReplies]
  | cons c cs ih =>
    by_cases hc : strtoul10 ((lyxml_get_attr c "message-id").getD "") = msgid
    · rw [scanReplies, if_pos hc]
      intro x hx
      exact List.mem_cons_of_mem c hx
    · rw [scanReplies, if_neg hc]
      intro x hx
      exact List.mem_cons_of_mem c (ih x hx)

/-- C4: when `recv_reply` with `want_msgid = k` scans a non-empty reply
queue, `get_msg` walks it head-first, removes and returns the first
entry whose parsed `message-id` equals `k`, and every passed entry with
a non-matching id is removed from the queue and freed (the resulting
queue is exactly the part after the match); the transport is not
touched. -/
theorem C4_reply_queue_scan (e timeout : Int) (msgid : Nat)
    (pre suf notifs : List Xml) (m : Xml) (wire : List WireEvent)
    (hmsgid : msgid ≠ 0)
    (hpre : ∀ x ∈ pre, parsedMsgid x ≠ msgid)
    (hm : parsedMsgid m = msgid) :
    get_msg (.acquired e) timeout msgid ⟨pre ++ m :: suf, notifs⟩ wire =
      ⟨NC_MSG_REPLY, some m, ⟨suf, notifs⟩, wire⟩ := by
  unfold get_msg
  rw [if_neg hmsgid]
  rw [show (⟨pre ++ m :: suf, notifs⟩ : SessionState).replies = pre ++ m :: suf from rfl]
  rw [scanReplies_found msgid pre suf m hpre hm]

/-- Concrete replies used by the pump witnesses and counterexamples. -/
def parkedReplyXml : Xml :=
  .mk "rpc-reply" (some NC_NS_BASE) none [("message-id", "3")] []

def otherReplyXml : Xml :=
  .mk "rpc-reply" (some NC_NS_BASE) none [("message-id", "2")] []

def pendingNotifXml : Xml := .mk "notification" none none [] []

theorem C4_reply_queue_scan_witness :
    get_msg (.acquired 0) 1000 3 ⟨[otherReplyXml, parkedReplyXml], []⟩ [] =
      ⟨NC_MSG_REPLY, some parkedReplyXml, ⟨[], []⟩, []⟩ :=
  C4_reply_queue_scan 0 1000 3 [otherReplyXml] [] [] parkedReplyXml []
    (by decide)
    (by
      intro x hx
      rw [List.mem_singleton] at hx
      subst hx
      decide)
    (by decide)

/-- All entries of the session's reply queue carry a (non-NULL)
`message-id` attribute. -/
def repliesHaveMsgid (st : SessionState) : Prop :=
  ∀ x ∈ st.replies, (lyxml_get_attr x "message-id").isSome = true

lemma readAndClassify_preserves (msgid : Nat) (st : SessionState) (wire : List WireEvent)
    (h : repliesHaveMsgid st) :
    repliesHaveMsgid (readAndClassify msgid st wire).state := by
  unfold readAndClassify
  split
  · split
    · split
      · exact h
      · intro x hx
        rw [List.mem_append] at hx
        rcases hx with hx | hx
        · exact h x hx
        · rw [List.mem_singleton] at hx
          subst hx
          rename_i xml _ v heq
          rw [heq]
          rfl
    · exact h
  · split
    · exact h
    · exact h
  · exact h
  · exact h
  · exact h

/-- C10: `get_msg` preserves the queue invariant that every parked reply
carries a `message-id` attribute — a reply read from the wire is parked
only after `lyxml_get_attr(xml, "message-id")` was checked non-NULL,
and the scan only removes entries.  Together with the initially empty
queue this is what keeps the scan's unguarded `strtoul` away from a NULL
argument. -/
theorem C10_replies_msgid_invariant (lock : LockResult) (timeout : Int) (msgid : Nat)
    (st : SessionState) (wire : List WireEvent) (h : repliesHaveMsgid st) :
    repliesHaveMsgid (get_msg lock timeout msgid st wire).state := by
  unfold get_msg
  match lock with
  | .err => exact h
  | .timedout => exact h
  | .acquired e =>
    simp only
    split
    · split
      · intro x hx
        exact h x hx
      · exact readAndClassify_preserves _ _ _ h
    · split
      · rename_i m rest heq
        intro x hx
        have hx2 : x ∈ (scanReplies msgid st.replies).2 := by
          rw [heq]
          exact hx
        exact h x (scanReplies_rest_mem _ _ x hx2)
      · rename_i rest heq
        refine readAndClassify_preserves _ _ _ ?_
        intro x hx
        have hx2 : x ∈ (scanReplies msgid st.replies).2 := by
          rw [heq]
          exact hx
        exact h x (scanReplies_rest_mem _ _ x hx2)

theorem C10_replies_msgid_invariant_witness :
    repliesHaveMsgid ⟨[parkedReplyXml], []⟩ ∧
    repliesHaveMsgid
      (get_msg (.acquired 0) 0 0 ⟨[parkedReplyXml], []⟩ []).state := by
  have hq : repliesHaveMsgid ⟨[parkedReplyXml], []⟩ := by
    intro x hx
    rw [show (⟨[parkedReplyXml], []⟩ : SessionState).replies = [parkedReplyXml] from rfl,
        List.mem_singleton] at hx
    subst hx
    rfl
  exact ⟨hq, C10_replies_msgid_invariant (.acquired 0) 0 0 ⟨[parkedReplyXml], []⟩ [] hq⟩

/-- A parse oracle whose libyang collaborators all fail; the structural
branches of `parse_reply` never consult it. -/
def trivialOracle : ParseOracle :=
  { lyd_parse_mem := fun _ => none,
    schemaOf := fun _ => "",
    ctx_get_node := fun _ => none,
    lyd_parse_xml_data := fun _ => none,
    lyd_parse_xml_reply := fun _ _ => none }

/-- An `<rpc-reply message-id="5"><ok/></rpc-reply>` read fresh from the
transport while the caller asked for message-id 7. -/
def mismatchReplyXml : Xml :=
  .mk "rpc-reply" (some NC_NS_BASE) none [("message-id", "5")]
    [.mk "ok" (some NC_NS_BASE) none [] []]

/-- C1 is false on the code: with an empty reply queue and `msgid = 7`,
a reply read fresh from the transport carrying `message-id="5"` is
returned by `get_msg` and delivered (parsed) by `nc_recv_reply` even
though its message-id differs from the requested one — the wire path of
`get_msg` never compares the attribute. -/
theorem C1_counterexample :
    (nc_recv_reply trivialOracle true .commit (.acquired 0) (-1) 7 ⟨[], []⟩
        [.msg NC_MSG_REPLY mismatchReplyXml]).msgtype = NC_MSG_REPLY ∧
    (nc_recv_reply trivialOracle true .commit (.acquired 0) (-1) 7 ⟨[], []⟩
        [.msg NC_MSG_REPLY mismatchReplyXml]).reply = some .ok ∧
    (get_msg (.acquired 0) (-1) 7 ⟨[], []⟩
        [.msg NC_MSG_REPLY mismatchReplyXml]).msg = some mismatchReplyXml ∧
    lyxml_get_attr mismatchReplyXml "message-id" = some "5" ∧
    parsedMsgid mismatchReplyXml = 5 ∧ (5 : Nat) ≠ 7 :=
  ⟨rfl, rfl, rfl, rfl, rfl, by decide⟩

/-- C1 amended: a reply taken from the session's reply queue always
carries a parsed `message-id` equal to the requested one, but a reply
read fresh from the transport during the call is returned to the caller
without any message-id comparison. -/
lemma get_msg_acquired_pos (e timeout : Int) (msgid : Nat) (st : SessionState)
    (wire : List WireEvent) (h : msgid ≠ 0) :
    get_msg (.acquired e) timeout msgid st wire =
      match scanReplies msgid st.replies with
      | (some m, rest) => ⟨NC_MSG_REPLY, some m, ⟨rest, st.notifs⟩, wire⟩
      | (none, rest) => readAndClassify msgid ⟨rest, st.notifs⟩ wire := by
  simp only [get_msg, if_neg h]

lemma get_msg_acquired_zero (e timeout : Int) (st : SessionState) (wire : List WireEvent) :
    get_msg (.acquired e) timeout 0 st wire =
      match st.notifs with
      | n :: nrest => ⟨NC_MSG_NOTIF, some n, ⟨st.replies, nrest⟩, wire⟩
      | [] => readAndClassify 0 st wire := by
  simp only [get_msg, if_pos]

lemma readAndClassify_reply_pos (msgid : Nat) (st : SessionState) (xml : Xml)
    (wire : List WireEvent) (h : msgid ≠ 0) :
    readAndClassify msgid st (.msg NC_MSG_REPLY xml :: wire) =
      ⟨NC_MSG_REPLY, some xml, st, wire⟩ := by
  simp only [readAndClassify, nc_read_msg_poll, if_neg h]

lemma readAndClassify_reply_zero (st : SessionState) (xml : Xml)
    (wire : List WireEvent) (v : String)
    (hattr : lyxml_get_attr xml "message-id" = some v) :
    readAndClassify 0 st (.msg NC_MSG_REPLY xml :: wire) =
      ⟨NC_MSG_REPLY, none, ⟨st.replies ++ [xml], st.notifs⟩, wire⟩ := by
  simp only [readAndClassify, nc_read_msg_poll, if_pos, hattr]

lemma readAndClassify_notif_pos (msgid : Nat) (st : SessionState) (xml : Xml)
    (wire : List WireEvent) (h : msgid ≠ 0) :
    readAndClassify msgid st (.msg NC_MSG_NOTIF xml :: wire) =
      ⟨NC_MSG_NOTIF, none, ⟨st.replies, st.notifs ++ [xml]⟩, wire⟩ := by
  simp only [readAndClassify, nc_read_msg_poll, if_neg h]

theorem C1_amended_thm :
    (∀ (msgid : Nat) (q : List Xml) (m : Xml) (rest : List Xml),
        scanReplies msgid q = (some m, rest) → parsedMsgid m = msgid) ∧
    (∀ (e timeout : Int) (msgid : Nat) (notifs : List Xml) (xml : Xml)
        (wire : List WireEvent), msgid ≠ 0 →
        get_msg (.acquired e) timeout msgid ⟨[], notifs⟩
            (.msg NC_MSG_REPLY xml :: wire) =
          ⟨NC_MSG_REPLY, some xml, ⟨[], notifs⟩, wire⟩) := by
  constructor
  · exact fun msgid q m rest h => scanReplies_eq_some msgid q m rest h
  · intro e timeout msgid notifs xml wire hmsgid
    rw [get_msg_acquired_pos e timeout msgid ⟨[], notifs⟩ _ hmsgid]
    show readAndClassify msgid ⟨[], notifs⟩ (.msg NC_MSG_REPLY xml :: wire) = _
    rw [readAndClassify_reply_pos msgid ⟨[], notifs⟩ xml wire hmsgid]

theorem C1_amended_witness :
    parsedMsgid parkedReplyXml = 3 ∧
    get_msg (.acquired 0) 1000 3 ⟨[], []⟩ [.msg NC_MSG_REPLY mismatchReplyXml] =
      ⟨NC_MSG_REPLY, some mismatchReplyXml, ⟨[], []⟩, []⟩ :=
  ⟨C1_amended_thm.1 3 [parkedReplyXml] parkedReplyXml [] rfl,
   C1_amended_thm.2 0 1000 3 [] mismatchReplyXml [] (by decide)⟩

/-- C2 is false on the code: a demultiplexer call with `want_msgid = 0`
that reads an `<rpc-reply>` with a `message-id` parks it at the tail of
the reply queue but then returns immediately with `NC_MSG_REPLY` (and no
message), leaving the following notification unread on the wire —
it does not continue reading within the remaining budget. -/
theorem C2_counterexample :
    get_msg (.acquired 0) 1000 0 ⟨[], []⟩
        [.msg NC_MSG_REPLY parkedReplyXml, .msg NC_MSG_NOTIF pendingNotifXml] =
      ⟨NC_MSG_REPLY, none, ⟨[parkedReplyXml], []⟩,
        [.msg NC_MSG_NOTIF pendingNotifXml]⟩ := rfl

/-- C2 amended: a reply with a `message-id` read while a notification is
wanted is appended at the tail of the reply queue and is not handed to
the caller as a message, but `get_msg` returns at once with
`NC_MSG_REPLY` instead of continuing to read; symmetrically, a
notification read while a reply is wanted is appended at the tail of the
notification queue and `get_msg` returns at once with `NC_MSG_NOTIF`. -/
theorem C2_amended_thm :
    (∀ (e timeout : Int) (st : SessionState) (xml : Xml) (wire : List WireEvent)
        (v : String), st.notifs = [] → lyxml_get_attr xml "message-id" = some v →
        get_msg (.acquired e) timeout 0 st (.msg NC_MSG_REPLY xml :: wire) =
          ⟨NC_MSG_REPLY, none, ⟨st.replies ++ [xml], []⟩, wire⟩) ∧
    (∀ (e timeout : Int) (msgid : Nat) (notifs : List Xml) (xml : Xml)
        (wire : List WireEvent), msgid ≠ 0 →
        get_msg (.acquired e) timeout msgid ⟨[], notifs⟩
            (.msg NC_MSG_NOTIF xml :: wire) =
          ⟨NC_MSG_NOTIF, none, ⟨[], notifs ++ [xml]⟩, wire⟩) := by
  constructor
  · intro e timeout st xml wire v hn hattr
    rw [get_msg_acquired_zero, hn]
    show readAndClassify 0 st (.msg NC_MSG_REPLY xml :: wire) = _
    rw [readAndClassify_reply_zero st xml wire v hattr, hn]
  · intro e timeout msgid notifs xml wire hmsgid
    rw [get_msg_acquired_pos e timeout msgid ⟨[], notifs⟩ _ hmsgid]
    show readAndClassify msgid ⟨[], notifs⟩ (.msg NC_MSG_NOTIF xml :: wire) = _
    rw [readAndClassify_notif_pos msgid ⟨[], notifs⟩ xml wire hmsgid]

theorem C2_amended_witness :
    get_msg (.acquired 0) 1000 0 ⟨[], []⟩ [.msg NC_MSG_REPLY parkedReplyXml] =
      ⟨NC_MSG_REPLY, none, ⟨[parkedReplyXml], []⟩, []⟩ ∧
    get_msg (.acquired 0) 1000 3 ⟨[], []⟩ [.msg NC_MSG_NOTIF pendingNotifXml] =
      ⟨NC_MSG_NOTIF, none, ⟨[], [pendingNotifXml]⟩, []⟩ :=
  ⟨C2_amended_thm.1 0 1000 ⟨[], []⟩ parkedReplyXml [] "3" rfl rfl,
   C2_amended_thm.2 0 1000 3 [] pendingNotifXml [] (by decide)⟩

/-! ## Theorems about the reply parser -/

/-- The C8 invariant on the `tag` field: absent or one of the 18 known
NETCONF error tags. -/
def tagOkay (t : Option String) : Prop :=
  t = none ∨ ∃ c, t = some c ∧ c ∈ errorTags

lemma errorInfoStep_tag (e : NcErr) (i : Xml) : (errorInfoStep e i).tag = e.tag := by
  unfold errorInfoStep
  split
  · split_ifs <;> rfl
  · rfl

lemma errorInfoFold_tag (l : List Xml) (e : NcErr) :
    (l.foldl errorInfoStep e).tag = e.tag := by
  induction l generalizing e with
  | nil => rfl
  | cons i is ih => rw [List.foldl_cons, ih, errorInfoStep_tag]

lemma parseRpcErrorStep_tag (e : NcErr) (x : Xml) (h : tagOkay e.tag) :
    tagOkay (parseRpcErrorStep e x).tag := by
  unfold parseRpcErrorStep
  split
  · exact h
  next nsv hns =>
    by_cases hb : nsv ≠ NC_NS_BASE
    · rw [if_pos hb]
      exact h
    · rw [if_neg hb]
      by_cases h1 : x.name = "error-type"
      · rw [if_pos h1]
        split
        · exact h
        · split_ifs <;> exact h
      · rw [if_neg h1]
        by_cases h2 : x.name = "error-tag"
        · rw [if_pos h2]
          split
          · exact h
          next c hc =>
            split_ifs with hmem hdup
            · exact h
            · exact Or.inr ⟨c, rfl, hmem⟩
            · exact h
        · rw [if_neg h2]
          by_cases h3 : x.name = "error-severity"
          · rw [if_pos h3]
            split
            · exact h
            · split_ifs <;> exact h
          · rw [if_neg h3]
            by_cases h4 : x.name = "error-app-tag"
            · rw [if_pos h4]
              split_ifs <;> exact h
            · rw [if_neg h4]
              by_cases h5 : x.name = "error-path"
              · rw [if_pos h5]
                split_ifs <;> exact h
              · rw [if_neg h5]
                by_cases h6 : x.name = "error-message"
                · rw [if_pos h6]
                  split_ifs <;> exact h
                · rw [if_neg h6]
                  by_cases h7 : x.name = "error-info"
                  · rw [if_pos h7]
                    rw [errorInfoFold_tag]
                    exact h
                  · rw [if_neg h7]
                    exact h

/-- C8: for every decoded `<rpc-error>`, the produced record's `tag`
field is either absent or a member of the closed set of known NETCONF
error tags (`errorTags`, the `strcmp` chain of the source); an
`<error-tag>` whose content is outside the closed set is logged and
dropped, never stored. -/
theorem C8_error_tag_closed (xml : Xml) :
    (parse_rpc_error xml).tag = none ∨
    ∃ c, (parse_rpc_error xml).tag = some c ∧ c ∈ errorTags := by
  have step : ∀ (l : List Xml) (e : NcErr), tagOkay e.tag →
      tagOkay ((l.foldl parseRpcErrorStep e).tag) := by
    intro l
    induction l with
    | nil => exact fun e h => h
    | cons y ys ih => exact fun e h => ih _ (parseRpcErrorStep_tag e y h)
  exact step xml.children emptyErr (Or.inl rfl)

/-- C9: `parse_reply` returns NULL for each of the structurally
malformed shapes: an `<rpc-reply>` with no children; one whose first
child is a base-namespace `<rpc-error>` but whose children are not all
base-namespace `<rpc-error>` elements; and one whose first child is a
base-namespace `<ok>` with any sibling present. -/
theorem C9_malformed_reply :
    (∀ (po : ParseOracle) (rpc : NcRpc) (xml : Xml),
        xml.children = [] → parse_reply po xml rpc = none) ∧
    (∀ (po : ParseOracle) (rpc : NcRpc) (xml first : Xml) (rest : List Xml),
        xml.children = first :: rest →
        first.name = "rpc-error" → first.ns = some NC_NS_BASE →
        ¬ ((first :: rest).all
            (fun it => it.name == "rpc-error" && it.ns == some NC_NS_BASE) = true) →
        parse_reply po xml rpc = none) ∧
    (∀ (po : ParseOracle) (rpc : NcRpc) (xml first : Xml) (rest : List Xml),
        xml.children = first :: rest →
        first.name = "ok" → first.ns = some NC_NS_BASE → rest ≠ [] →
        parse_reply po xml rpc = none) := by
  refine ⟨?_, ?_, ?_⟩
  · intro po rpc xml h
    unfold parse_reply
    rw [h]
  · intro po rpc xml first rest h hname hns hall
    unfold parse_reply
    rw [h]
    show (if first.name = "rpc-error" ∧ first.ns = some NC_NS_BASE then
            if (first :: rest).all
                (fun iter => iter.name == "rpc-error" && iter.ns == some NC_NS_BASE) then
              some (NcReply.error ((first :: rest).map parse_rpc_error))
            else none
          else _) = none
    rw [if_pos ⟨hname, hns⟩, if_neg hall]
  · intro po rpc xml first rest h hname hns hrest
    unfold parse_reply
    rw [h]
    have hne : ¬ (first.name = "rpc-error" ∧ first.ns = some NC_NS_BASE) := by
      intro hcontra
      rw [hname] at hcontra
      exact absurd hcontra.1 (by decide)
    have hder : ¬ (rest.isEmpty = true) := by
      cases rest with
      | nil => exact absurd rfl hrest
      | cons a as => simp [List.isEmpty]
    show (if first.name = "rpc-error" ∧ first.ns = some NC_NS_BASE then _
          else if first.name = "ok" ∧ first.ns = some NC_NS_BASE then
            (if rest.isEmpty then some NcReply.ok else none)
          else _) = none
    rw [if_neg hne, if_pos ⟨hname, hns⟩, if_neg hder]

/-- Concrete malformed replies for the C9 witness. -/
def rpcErrorElem : Xml := .mk "rpc-error" (some NC_NS_BASE) none [] []

def okElem : Xml := .mk "ok" (some NC_NS_BASE) none [] []

def emptyReplyXml : Xml := .mk "rpc-reply" (some NC_NS_BASE) none [] []

def mixedReplyXml : Xml :=
  .mk "rpc-reply" (some NC_NS_BASE) none [] [rpcErrorElem, okElem]

def okExtraReplyXml : Xml :=
  .mk "rpc-reply" (some NC_NS_BASE) none [] [okElem, rpcErrorElem]

theorem C9_malformed_reply_witness :
    parse_reply trivialOracle emptyReplyXml .commit = none ∧
    parse_reply trivialOracle mixedReplyXml .commit = none ∧
    parse_reply trivialOracle okExtraReplyXml .commit = none :=
  ⟨C9_malformed_reply.1 trivialOracle .commit emptyReplyXml rfl,
   C9_malformed_reply.2.1 trivialOracle .commit mixedReplyXml rpcErrorElem [okElem]
     rfl rfl rfl (by decide),
   C9_malformed_reply.2.2 trivialOracle .commit okExtraReplyXml okElem [rpcErrorElem]
     rfl rfl rfl (List.cons_ne_nil _ _)⟩

/-! ## Theorems about the schema-context loader -/

lemma capFeature_append (s : List Char) :
    capFeature (CAP_PREFIX ++ s) = capSuffixFeature s := by
  unfold capFeature
  rw [if_pos (List.isPrefixOf_iff_prefix.mpr ⟨s, rfl⟩)]
  rw [show (35 : Nat) = CAP_PREFIX.length from rfl, List.drop_left]

lemma capSuffix_confirmedCommit (s : List Char) :
    capSuffixFeature s = some .confirmedCommit ↔ s = "confirmed-commit:1.1".data := by
  constructor
  · intro h
    unfold capSuffixFeature at h
    split_ifs at h with h1 h2 h3 h4 h5 h6 h7 h8 <;>
      first
        | exact h3
        | exact absurd h (by decide)
  · intro h
    subst h
    rfl

lemma capSuffix_validate (s : List Char) :
    capSuffixFeature s = some .validate ↔ s = "validate:1.1".data := by
  constructor
  · intro h
    unfold capSuffixFeature at h
    split_ifs at h with h1 h2 h3 h4 h5 h6 h7 h8 <;>
      first
        | exact h5
        | exact absurd h (by decide)
  · intro h
    subst h
    rfl

/-- C5: a capability `urn:ietf:params:netconf:capability:<suffix>`
enables exactly the feature selected by the `if`/`else if` chain:
`confirmed-commit` exactly for the suffix `confirmed-commit:1.1`,
`validate` exactly for `validate:1.1`, and the six prefix-matched
features for any suffix extending their token; in particular
`candidate:1.0` yields only the `candidate` feature (and
`ctx_check_and_load_ietf_netconf` enables exactly `[candidate]` for it,
not `writable-running`). -/
theorem C5_capability_features (s t : List Char) :
    (capFeature (CAP_PREFIX ++ s) = some .confirmedCommit ↔
      s = "confirmed-commit:1.1".data) ∧
    (capFeature (CAP_PREFIX ++ s) = some .validate ↔ s = "validate:1.1".data) ∧
    capFeature (CAP_PREFIX ++ ("writable-running".data ++ t)) = some .writableRunning ∧
    capFeature (CAP_PREFIX ++ ("candidate".data ++ t)) = some .candidate ∧
    capFeature (CAP_PREFIX ++ ("rollback-on-error".data ++ t)) = some .rollbackOnError ∧
    capFeature (CAP_PREFIX ++ ("startup".data ++ t)) = some .startup ∧
    capFeature (CAP_PREFIX ++ ("url".data ++ t)) = some .url ∧
    capFeature (CAP_PREFIX ++ ("xpath".data ++ t)) = some .xpath ∧
    ctx_check_and_load_ietf_netconf true [CAP_PREFIX ++ "candidate:1.0".data] =
      (0, [Feature.candidate]) := by
  refine ⟨?_, ?_, ?_, ?_, ?_, ?_, ?_, ?_, ?_⟩
  · rw [capFeature_append]
    exact capSuffix_confirmedCommit s
  · rw [capFeature_append]
    exact capSuffix_validate s
  · rw [capFeature_append]
    unfold capSuffixFeature
    simp [List.isPrefixOf, String.data]
  · rw [capFeature_append]
    unfold capSuffixFeature
    simp [List.isPrefixOf, String.data]
  · rw [capFeature_append]
    unfold capSuffixFeature
    simp [List.isPrefixOf, String.data]
  · rw [capFeature_append]
    unfold capSuffixFeature
    simp [List.isPrefixOf, String.data]
  · rw [capFeature_append]
    unfold capSuffixFeature
    simp [List.isPrefixOf, String.data]
  · rw [capFeature_append]
    unfold capSuffixFeature
    simp [List.isPrefixOf, String.data]
  · rfl

theorem C5_capability_features_witness :
    capFeature (CAP_PREFIX ++ ("candidate".data ++ ":1.0".data)) = some .candidate ∧
    capFeature (CAP_PREFIX ++ "confirmed-commit:1.1".data) = some .confirmedCommit :=
  ⟨(C5_capability_features [] ":1.0".data).2.2.2.1,
   (C5_capability_features "confirmed-commit:1.1".data []).1.mpr rfl⟩

lemma ctx_check_and_load_model_of_module (env : LoaderEnv) (clb : ClbState)
    (c : List Char) (h : (strstrIdx c "module=".data).isSome = true) :
    ctx_check_and_load_model env clb c = 0 ∨ ctx_check_and_load_model env clb c = 1 := by
  unfold ctx_check_and_load_model parseParam
  cases hs : strstrIdx c "module=".data with
  | none =>
    rw [hs] at h
    cases h
  | some i =>
    simp only
    split_ifs <;> simp

/-- The loop invariant of the model-loading `for` loop: never stopped
(the `break` arm is unreachable when every processed capability carries
`module=`), return value 0 or 1, and 1 exactly when some model
failed. -/
def fillInv (a : FillAcc) : Prop :=
  a.stopped = false ∧ (a.ret = 0 ∨ a.ret = 1) ∧ (a.ret = 1 ↔ a.failed ≠ [])


lemma fillStep_inv (env : LoaderEnv) (gss : Bool) (oldClb : ClbState)
    (a : FillAcc) (c : List Char)
    (hmod : isCapOrBase c = false → (strstrIdx c "module=".data).isSome = true)
    (ha : fillInv a) : fillInv (fillStep env gss oldClb a c) := by
  obtain ⟨hstop, hret, hiff⟩ := ha
  unfold fillStep
  rw [if_neg (by rw [hstop]; exact Bool.false_ne_true)]
  by_cases hcb : isCapOrBase c = true
  · rw [if_pos hcb]
    exact ⟨hstop, hret, hiff⟩
  · rw [if_neg hcb]
    have hm := hmod (Bool.not_eq_true _ ▸ hcb)
    rcases ctx_check_and_load_model_of_module env a.clb c hm with h0 | h1
    · rw [h0]
      rw [if_neg (by decide), if_neg (by decide)]
      exact ⟨hstop, hret, hiff⟩
    · rw [h1]
      rw [if_neg (by decide), if_pos rfl]
      by_cases h2 : fillRetry env gss oldClb a.clb c ≠ 0
      · refine ⟨rfl, ?_, ?_⟩
        · rw [show ({ ret := if fillRetry env gss oldClb a.clb c ≠ 0 then 1 else a.ret,
                      clb := .getschema,
                      failed := if fillRetry env gss oldClb a.clb c ≠ 0 then
                          a.failed ++ [(parseParam c "module=".data 7).getD []]
                        else a.failed,
                      stopped := false } : FillAcc).ret =
                if fillRetry env gss oldClb a.clb c ≠ 0 then 1 else a.ret from rfl,
            if_pos h2]
          exact Or.inr rfl
        · show (if fillRetry env gss oldClb a.clb c ≠ 0 then (1 : Int) else a.ret) = 1 ↔
            (if fillRetry env gss oldClb a.clb c ≠ 0 then
                a.failed ++ [(parseParam c "module=".data 7).getD []]
              else a.failed) ≠ []
          rw [if_pos h2, if_pos h2]
          simp
      · refine ⟨rfl, ?_, ?_⟩
        · show (if fillRetry env gss oldClb a.clb c ≠ 0 then (1 : Int) else a.ret) = 0 ∨
            (if fillRetry env gss oldClb a.clb c ≠ 0 then (1 : Int) else a.ret) = 1
          rw [if_neg h2]
          exact hret
        · show (if fillRetry env gss oldClb a.clb c ≠ 0 then (1 : Int) else a.ret) = 1 ↔
            (if fillRetry env gss oldClb a.clb c ≠ 0 then
                a.failed ++ [(parseParam c "module=".data 7).getD []]
              else a.failed) ≠ []
          rw [if_neg h2, if_neg h2]
          exact hiff

lemma fill_fold_inv (env : LoaderEnv) (gss : Bool) (oldClb : ClbState)
    (l : List (List Char))
    (hmod : ∀ c ∈ l, isCapOrBase c = false →
      (strstrIdx c "module=".data).isSome = true)
    (a : FillAcc) (ha : fillInv a) :
    fillInv (l.foldl (fillStep env gss oldClb) a) := by
  induction l generalizing a with
  | nil => exact ha
  | cons c cs ih =>
    exact ih (fun y hy => hmod y (List.mem_cons_of_mem c hy)) _
      (fillStep_inv env gss oldClb a c (hmod c (List.mem_cons_self c cs)) ha)

lemma fillLoop_inv (env : LoaderEnv) (initClb : ClbState) (cpblts : List (List Char))
    (hmod : ∀ c ∈ cpblts, isCapOrBase c = false →
      (strstrIdx c "module=".data).isSome = true) :
    fillInv (fillLoop env initClb cpblts) :=
  fill_fold_inv env (gssOf cpblts) (oldClbOf env initClb cpblts) cpblts hmod
    ⟨0, clb1Of env initClb cpblts, [], false⟩ ⟨rfl, Or.inl rfl, by simp⟩

/-- C3: when every non-base, non-`capability:` URI in the peer's list
carries `module=`, the aggregate result of `nc_ctx_check_and_fill` is
−1 exactly when the base `ietf-netconf` cannot be obtained; otherwise it
is 0 exactly when no model finally failed to load and 1 exactly when at
least one did. -/
theorem C3_loader_aggregate (env : LoaderEnv) (initClb : ClbState)
    (cpblts : List (List Char))
    (hmod : ∀ c ∈ cpblts, isCapOrBase c = false →
      (strstrIdx c "module=".data).isSome = true) :
    ((nc_ctx_check_and_fill env initClb cpblts).ret = -1 ↔ env.baseAvail = false) ∧
    (env.baseAvail = true →
      (((nc_ctx_check_and_fill env initClb cpblts).ret = 0 ↔
          (nc_ctx_check_and_fill env initClb cpblts).failed = []) ∧
       ((nc_ctx_check_and_fill env initClb cpblts).ret = 1 ↔
          (nc_ctx_check_and_fill env initClb cpblts).failed ≠ []))) := by
  unfold nc_ctx_check_and_fill
  by_cases hb : env.baseAvail = true
  · have hcond : ¬ ((ctx_check_and_load_ietf_netconf env.baseAvail cpblts).1 ≠ 0) := by
      rw [hb]
      exact fun hcon => hcon rfl
    rw [if_neg hcond]
    obtain ⟨hstop, hret, hiff⟩ := fillLoop_inv env initClb cpblts hmod
    refine ⟨?_, fun _ => ⟨?_, ?_⟩⟩
    · show (fillLoop env initClb cpblts).ret = -1 ↔ env.baseAvail = false
      rw [hb]
      constructor
      · intro hm1
        rcases hret with h | h <;> (rw [hm1] at h; exact absurd h (by decide))
      · intro hcontra
        exact absurd hcontra (by decide)
    · show (fillLoop env initClb cpblts).ret = 0 ↔
        (fillLoop env initClb cpblts).failed = []
      constructor
      · intro h0
        by_contra hne
        have h1 := hiff.mpr hne
        rw [h0] at h1
        exact absurd h1 (by decide)
      · intro hnil
        rcases hret with h | h
        · exact h
        · exact absurd (hiff.mp h) (by simp [hnil])
    · show (fillLoop env initClb cpblts).ret = 1 ↔
        (fillLoop env initClb cpblts).failed ≠ []
      exact hiff
  · have hb2 : env.baseAvail = false := by
      cases henv : env.baseAvail
      · rfl
      · exact absurd henv hb
    have hcond : (ctx_check_and_load_ietf_netconf env.baseAvail cpblts).1 ≠ 0 := by
      rw [hb2]
      rw [show (ctx_check_and_load_ietf_netconf false cpblts).1 = 1 from rfl]
      decide
    rw [if_pos hcond]
    refine ⟨?_, ?_⟩
    · show (-1 : Int) = -1 ↔ env.baseAvail = false
      simp [hb2]
    · intro hcontra
      rw [hb2] at hcontra
      exact absurd hcontra (by decide)

/-- A loader environment for the concrete loader runs: no module
loadable in-band (the oracle fails under the get-schema callback) but
everything loadable under the initial or no callback. -/
def witnessEnv : LoaderEnv :=
  { monitoringLocal := false,
    monitoringParseOk := true,
    baseAvail := true,
    loadOk := fun _ _ clb => clb ≠ ClbState.getschema }

theorem C3_loader_aggregate_witness :
    (nc_ctx_check_and_fill witnessEnv .noClb
      ["urn:ietf:params:netconf:base:1.0".data, "urn:example:acme?module=acme".data]).ret
        = 0 ↔ (nc_ctx_check_and_fill witnessEnv .noClb
      ["urn:ietf:params:netconf:base:1.0".data, "urn:example:acme?module=acme".data]).failed
        = [] :=
  ((C3_loader_aggregate witnessEnv .noClb
      ["urn:ietf:params:netconf:base:1.0".data, "urn:example:acme?module=acme".data]
      (by
        intro c hc hcb
        rw [List.mem_cons, List.mem_cons] at hc
        rcases hc with h | h | h
        · rw [h] at hcb
          exact absurd hcb (by decide)
        · rw [h]
          decide
        · cases h)).2 rfl).1

/-- C6 failing input: no `ietf-netconf-monitoring` capability (so
`get_schema_support` is false), one module capability whose load fails. -/
def c6env : LoaderEnv :=
  { monitoringLocal := false,
    monitoringParseOk := true,
    baseAvail := true,
    loadOk := fun _ _ _ => false }

def c6cpblts : List (List Char) :=
  ["urn:ietf:params:netconf:base:1.0".data, "urn:example:acme?module=acme".data]

/-- C6 is violated by the code: with `get_schema_support = false` and a
user-supplied module callback installed, a single module-load failure
makes `nc_ctx_check_and_fill` install `libyang_module_clb` as the
context's module callback (the `ly_ctx_set_module_clb` at the end of the
`r == 1` arm runs outside the `if (get_schema_support)` guard, and the
final `if (old_clb)` restore never fires because `old_clb` was never
captured), so the callback does not stay unchanged as the claim — and
the code's own comment, which speaks of setting the callback *back* —
require. -/
theorem C6_callback_bug_eval :
    gssOf c6cpblts = false ∧
    (nc_ctx_check_and_fill c6env .user c6cpblts).ret = 1 ∧
    (nc_ctx_check_and_fill c6env .user c6cpblts).clb = ClbState.getschema ∧
    ClbState.user ≠ ClbState.getschema := by
  refine ⟨?_, ?_, ?_, ?_⟩ <;> decide

lemma strrchrIdxAux_lt (c : Char) (s : List Char) :
    ∀ (i : Nat) (best : Option Nat), (∀ j, best = some j → j < i) →
      ∀ q, strrchrIdxAux c s i best = some q → q < i + s.length := by
  induction s with
  | nil =>
    intro i best hbest q hq
    exact lt_of_lt_of_le (hbest q hq) (by simp)
  | cons x xs ih =>
    intro i best hbest q hq
    unfold strrchrIdxAux at hq
    have hlt := ih (i + 1) (if x == c then some i else best)
      (by
        intro j hj
        by_cases hx : (x == c) = true
        · rw [if_pos hx] at hj
          cases hj
          omega
        · rw [if_neg hx] at hj
          exact lt_trans (hbest j hj) (by omega))
      q hq
    simp only [List.length_cons]
    omega

lemma strrchrIdx_lt (s : List Char) (c : Char) (q : Nat)
    (h : strrchrIdx s c = some q) : q < s.length := by
  have := strrchrIdxAux_lt c s 0 none (by intro j hj; cases hj) q h
  simpa using this

/-- C7: the reentrant get-schema fetch callback always builds its RPC
with format `yin`, reports `LYS_IN_YIN` to libyang, waits for the reply
with a 250 ms timeout, returns NULL on send failure, reply timeout,
reply error or a non-data reply, and for a data reply computes the
schema text by removing the bytes up to and including the first `'>'`
and the bytes from the last `'<'` onward, returning exactly the
substring in between. -/
theorem C7_getschema_clb (name : String) (revision : Option String)
    (outcome : SchemaReplyOutcome) :
    (libyang_module_clb name revision outcome).rpc.format = some "yin" ∧
    (libyang_module_clb name revision outcome).informat = .LYS_IN_YIN ∧
    (libyang_module_clb name revision outcome).replyTimeout = 250 ∧
    ((outcome = .sendError ∨ outcome = .recvWouldblock ∨ outcome = .recvError) →
      (libyang_module_clb name revision outcome).result = none) ∧
    (∀ printed, outcome = .recvReply false printed →
      (libyang_module_clb name revision outcome).result = none) ∧
    (∀ a g q, outcome = .recvReply true (some a) →
      strchrIdx a '>' = some g → strrchrIdx a '<' = some q → g + 1 ≤ q →
      (libyang_module_clb name revision outcome).result =
        some ((a.drop (g + 1)).take (q - (g + 1)))) := by
  refine ⟨rfl, rfl, rfl, ?_, ?_, ?_⟩
  · intro h
    rcases h with h | h | h <;> (subst h; rfl)
  · intro printed h
    subst h
    rfl
  · intro a g q h hg hq hle
    subst h
    show stripDataWrapper a = some ((a.drop (g + 1)).take (q - (g + 1)))
    unfold stripDataWrapper
    rw [hg, hq]
    have hqlen := strrchrIdx_lt a '<' q hq
    have hsub : a.length - q ≤ a.length - (g + 1) := Nat.sub_le_sub_left hle _
    show some ((a.drop (g + 1)).take (stripTake a.length (g + 1) q)) =
      some ((a.drop (g + 1)).take (q - (g + 1)))
    rw [show stripTake a.length (g + 1) q = q - (g + 1) from by
      unfold stripTake
      rw [if_pos hsub]
      omega]

theorem C7_getschema_clb_witness :
    (libyang_module_clb "acme" (some "2021-05-01")
        (.recvReply true (some "<data><x/></data>".data))).result =
      some (("<data><x/></data>".data.drop (5 + 1)).take (10 - (5 + 1))) :=
  (C7_getschema_clb "acme" (some "2021-05-01")
      (.recvReply true (some "<data><x/></data>".data))).2.2.2.2.2
    "<data><x/></data>".data 5 10 rfl (by decide) (by decide) (by decide)
